import Mathlib

/-
Verification development for the Eligibility API scheduling repository.

The embedding models the three Python modules:
  * `eligibilty_api_schedule.py` — blackout predicate, job runner boundary
    (`safe_execute`), the eligibility transform pipeline;
  * `alert_system.py` — the file-based alert sink (directory creation, alert
    file write, history append, retention cleanup, optional email forward);
  * `query_db.py` — `DatabaseQuery.fetch_data` bounded-retry loop with its
    connection lifecycle.

Conventions of the embedding:
  * file names are `List Char` (Python string, one element per code point);
    subjects, bodies and log messages are Lean `String`;
  * external collaborators (database engine, pandas frames content,
    `src.utils` row transforms, SMTP, the OS file system) are parameters:
    environment records carry the outcome of each effectful step, and the
    functions return the value computed by the Python code together with an
    explicit trace of the side effects it performs, in program order;
  * Python exceptions are values: `PyExc.exc` is an instance of `Exception`
    (the class caught by `except Exception`), `PyExc.baseExc` is a
    `BaseException` that is not an `Exception` (`SystemExit`,
    `KeyboardInterrupt`), which such a handler does not catch.
-/

namespace EligSched

/-
Section 1: blackout predicate.

Python source (`eligibilty_api_schedule.py`, lines 128-130):

  def is_blackout_period():
      current_hour = datetime.now().hour
      return 24 <= current_hour or current_hour < 2

`datetime.now().hour` is an integer in [0, 23]; the predicate is a pure
function of that hour, embedded with the hour as the argument.
-/

/-- Embedding of `is_blackout_period`, parameterised by `datetime.now().hour`. -/
def is_blackout_period (current_hour : Nat) : Bool :=
  24 ≤ current_hour || current_hour < 2

/-
Section 2: alert filename construction.

Python source (`alert_system.py`, lines 82-84):

  timestamp = datetime.now().strftime("%Y%m%d_%H%M%S")
  alert_type = subject.replace(" ", "_").replace("/", "_").replace("\\", "_")[:30]
  filename = f"ALERT_{timestamp}_{alert_type}.txt"

Each `str.replace` has a one-character pattern and a one-character
replacement, so it is the pointwise map over the code points of the string;
`[:30]` keeps the first 30 code points.
-/

/-- Embedding of the `alert_type` sanitisation: replace every space, `/` and
`\` by `_` (three successive single-character replacements, as in the
source), then truncate to 30 characters. -/
def sanitize_alert_type (subject : String) : List Char :=
  ((((subject.data.map (fun c => if c = ' ' then '_' else c)).map
      (fun c => if c = '/' then '_' else c)).map
      (fun c => if c = '\\' then '_' else c))).take 30

/-- Embedding of the alert file name `ALERT_<timestamp>_<alert_type>.txt`. -/
def alert_filename (timestamp subject : String) : List Char :=
  "ALERT_".data ++ timestamp.data ++ "_".data ++ sanitize_alert_type subject ++ ".txt".data

/-
Section 3: alert retention cleanup.

Python source (`alert_system.py`, lines 107-130): `cleanup_old_alerts` lists
the files of the alerts directory whose name starts with `ALERT_` and ends
with `.txt`; when there are more than `MAX_ALERTS` of them it sorts them by
modification time and removes the oldest `len - MAX_ALERTS`, each removal
wrapped in `try/except: pass`. The directory is a list of
(name, modification time) pairs; `removeOk` tells whether `os.remove`
succeeds on a given name.
-/

/-- Maximum number of alert files to keep (`MAX_ALERTS = 100`). -/
def MAX_ALERTS : Nat := 100

/-- Embedding of the listing filter `f.startswith("ALERT_") and
f.endswith(".txt")`. -/
def is_alert_filename (name : List Char) : Bool :=
  List.isPrefixOf "ALERT_".data name && List.isSuffixOf ".txt".data name

/-- Files that `cleanup_old_alerts` successfully removes: the oldest
`len - MAX_ALERTS` alert files in modification-time order, restricted to
those whose removal does not fail. -/
def cleanup_removals (dir : List (List Char × Nat)) (removeOk : List Char → Bool) :
    List (List Char × Nat) :=
  let alert_files := dir.filter (fun f => is_alert_filename f.1)
  if MAX_ALERTS < alert_files.length then
    let sorted := alert_files.mergeSort (fun a b => decide (a.2 ≤ b.2))
    (sorted.take (alert_files.length - MAX_ALERTS)).filter (fun f => removeOk f.1)
  else []

/-- Directory contents after `cleanup_old_alerts` ran. -/
def cleanup_result (dir : List (List Char × Nat)) (removeOk : List Char → Bool) :
    List (List Char × Nat) :=
  dir.filter (fun f => !(decide (f ∈ cleanup_removals dir removeOk)))

/-
Section 4: the alert sink (`alert_system.py`).

Each sink function returns its Python return value together with the list of
side effects it performs, in program order. `AlertEnv` fixes the outcome of
every effectful step: whether the alerts directory already exists, whether
`os.makedirs` succeeds, whether the alert-file write and the history append
succeed, whether SMTP delivery succeeds, the `strftime` timestamp, the host
name, and the directory listing seen by the retention cleanup.
-/

/-- One observable side effect of the alert sink. -/
inductive AlertEvent where
  | logInfo (msg : String)
  | logError (msg : String)
  | mkdirAlerts
  | writeAlertFile (filename : List Char) (subject body : String)
  | appendHistory (subject : String)
  | removeFile (name : List Char)
  | sendEmail (subject body : String)
deriving DecidableEq

/-- Outcomes of the effectful steps of the alert sink, plus ambient data. -/
structure AlertEnv where
  dirExists : Bool
  mkdirOk : Bool
  writeOk : Bool
  historyOk : Bool
  emailOk : Bool
  timestamp : String
  hostname : String
  dirListing : List (List Char × Nat)
  removeOk : List Char → Bool

/-- Embedding of `ensure_alert_directory` (lines 62-71): if the directory is
missing, try to create it; a creation failure is logged and reported as
`False`, otherwise the function returns `True`. -/
def ensure_alert_directory (env : AlertEnv) : Bool × List AlertEvent :=
  if !env.dirExists then
    if env.mkdirOk then
      (true, [.mkdirAlerts, .logInfo "Created alerts directory"])
    else
      (false, [.logError "Failed to create alerts directory"])
  else (true, [])

/-- Embedding of `write_alert_to_file` (lines 73-105): ensure the directory,
build the timestamped file name, write the alert file and append the history
line inside one `try`; any failure is logged and `None` is returned. -/
def write_alert_to_file (env : AlertEnv) (subject body : String) :
    Option (List Char) × List AlertEvent :=
  let ed := ensure_alert_directory env
  if !ed.1 then (none, ed.2)
  else
    let filename := alert_filename env.timestamp subject
    if env.writeOk then
      if env.historyOk then
        (some filename,
          ed.2 ++ [.writeAlertFile filename subject body, .appendHistory subject,
            .logInfo "Alert written to file"])
      else
        (none,
          ed.2 ++ [.writeAlertFile filename subject body,
            .logError "Failed to write alert to file"])
    else (none, ed.2 ++ [.logError "Failed to write alert to file"])

/-- Side effects of the `cleanup_old_alerts` call inside `send_alert`: the
function returns at once when the directory does not exist (it exists here
exactly when it existed before or was just created); otherwise each
successful removal emits a remove and an info-log event. -/
def cleanup_events (env : AlertEnv) : List AlertEvent :=
  if env.dirExists || env.mkdirOk then
    (cleanup_removals env.dirListing env.removeOk).flatMap
      (fun f => [.removeFile f.1, .logInfo "Cleaned up old alert file"])
  else []

/-- Embedding of `notify_email` (lines 26-42): the whole body is wrapped in
`try/except`, so delivery failure only logs an error. -/
def notify_email (env : AlertEnv) (subject body : String) : List AlertEvent :=
  if env.emailOk then
    [.sendEmail subject body, .logInfo "Email notification sent successfully."]
  else [.logError "Email notification failed"]

/-- Embedding of `send_alert` (lines 132-142): write the alert file, run the
retention cleanup, optionally forward by email, and report whether the file
write produced a path. -/
def send_alert (env : AlertEnv) (subject body : String) : Bool × List AlertEvent :=
  let wr := write_alert_to_file env subject body
  (wr.1.isSome, wr.2 ++ cleanup_events env ++ notify_email env subject body)

/-- Embedding of `error_handler` (lines 144-163): format the fixed error
subject and body, log them, and send the alert. -/
def error_handler (env : AlertEnv) (job_name error_info : String) : List AlertEvent :=
  let error_subject := "Error in " ++ job_name ++ " on " ++ env.hostname
  let error_body :=
    "An error occurred in the " ++ job_name ++ " job on " ++ env.hostname ++
      " at " ++ env.timestamp ++ ".\n\n" ++
      "Error details:\n" ++ error_info ++ "\n\n" ++
      "Please check the scheduler.log file for more information."
  .logError (error_subject ++ "\n" ++ error_body) ::
    (send_alert env error_subject error_body).2

/-- Alerts recorded (files written) in a trace of sink events. -/
def recordedAlerts (events : List AlertEvent) : List (List Char × String × String) :=
  events.filterMap (fun e =>
    match e with
    | .writeAlertFile f s b => some (f, s, b)
    | _ => none)

/-
Section 5: the job runner boundary (`eligibilty_api_schedule.py`,
lines 33-41).

  def safe_execute(func, job_name, *args, **kwargs):
      try:
          return func(*args, **kwargs)
      except Exception as e:
          error_info = f"..."
          error_handler(job_name, error_info)

A Python `raise` throws a `BaseException`; the handler `except Exception`
catches exactly the instances of `Exception`, so a `SystemExit` or
`KeyboardInterrupt` (direct subclasses of `BaseException`) passes through.
`PyExc.exc msg trace` is an `Exception` carrying its message and the text
`traceback.format_exc()` would render; `PyExc.baseExc` is a
non-`Exception` `BaseException`.
-/

/-- Python exception values, split by whether `except Exception` catches
them. -/
inductive PyExc where
  | exc (msg trace : String)
  | baseExc (msg trace : String)
deriving DecidableEq

/-- Embedding of `safe_execute`: the wrapped call either returns a value or
raises; a caught exception is turned into an `error_handler` call (the
Python function then returns `None`, hence the `Option`), an uncaught one
propagates. -/
def safe_execute {α : Type} (env : AlertEnv) (func : Except PyExc α) (job_name : String) :
    Except PyExc (Option α) × List AlertEvent :=
  match func with
  | .ok a => (.ok (some a), [])
  | .error (.exc msg trace) =>
    (.ok none, error_handler env job_name (msg ++ "\n\n" ++ trace))
  | .error (.baseExc msg trace) => (.error (.baseExc msg trace), [])

/-
Section 6: bounded-retry fetch (`query_db.py`, lines 162-204).

The loop `while retry_count <= max_retries` is embedded with explicit fuel:
at loop entry with counter `k` the remaining iteration budget is
`max_retries + 1 - k`, so the loop guard is `0 < fuel` and the inner guard
`retry_count <= max_retries` evaluated after `retry_count += 1` is
`0 < fuel - 1`. Each iteration opens a connection (unless `engine.connect()
` itself raises, leaving `connection = None`), and its `finally` block
closes whatever connection is non-None on every exit: after a successful
`read_sql`, after a caught `SQLAlchemyError` (note the `time.sleep` inside
the `except` block runs before the `finally` close), and while a
non-SQLAlchemy exception propagates.
-/

/-- What the k-th attempt of the fetch loop does: `read_sql` succeeds,
`engine.connect()` raises `SQLAlchemyError`, `read_sql` raises
`SQLAlchemyError`, or some step raises a non-SQLAlchemy exception. -/
inductive AttemptOutcome (Rows : Type) where
  | ok (rows : Rows)
  | connectError (e : String)
  | sqlError (e : String)
  | otherError (e : String)

/-- Observable resource events of the fetch loop. -/
inductive FetchEvent where
  | openConn (attemptIdx : Nat)
  | closeConn (attemptIdx : Nat)
  | sleepDelay (seconds : Nat)
deriving DecidableEq

/-- Error raised out of `fetch_data`. -/
inductive FetchErr where
  | sql (e : String)
  | other (e : String)
  | raisedNone
deriving DecidableEq

/-- Embedding of the retry loop of `fetch_data`: `k` is `retry_count`,
`fuel` is `max_retries + 1 - k`, and the last argument is
`last_exception`. -/
def fetch_loop {Rows : Type} (attempt : Nat → AttemptOutcome Rows) (retry_delay : Nat) :
    Nat → Nat → Option String → Except FetchErr Rows × List FetchEvent
  | _, 0, lastErr =>
    (.error (match lastErr with | some e => .sql e | none => .raisedNone), [])
  | k, fuel+1, _ =>
    match attempt k with
    | .ok rows => (.ok rows, [.openConn k, .closeConn k])
    | .connectError e =>
      let rest := fetch_loop attempt retry_delay (k+1) fuel (some e)
      (rest.1, (if 0 < fuel then [.sleepDelay retry_delay] else []) ++ rest.2)
    | .sqlError e =>
      let rest := fetch_loop attempt retry_delay (k+1) fuel (some e)
      (rest.1,
        .openConn k ::
          ((if 0 < fuel then [.sleepDelay retry_delay] else []) ++ (.closeConn k :: rest.2)))
    | .otherError e => (.error (.other e), [.openConn k, .closeConn k])

/-- Embedding of `fetch_data` (after the query is built): run the retry loop
from `retry_count = 0` with `max_retries + 1` iterations of budget. -/
def fetch_data {Rows : Type} (attempt : Nat → AttemptOutcome Rows)
    (max_retries retry_delay : Nat) : Except FetchErr Rows × List FetchEvent :=
  fetch_loop attempt retry_delay 0 (max_retries + 1) none

/-- Connection events of a fetch trace, tagged `true` for open and `false`
for close, with the attempt index. -/
def connEvents (tr : List FetchEvent) : List (Bool × Nat) :=
  tr.filterMap (fun e =>
    match e with
    | .openConn k => some (true, k)
    | .closeConn k => some (false, k)
    | .sleepDelay _ => none)

/-- Attempt indices whose connection was opened, in order. -/
def openedConns (tr : List FetchEvent) : List Nat :=
  tr.filterMap (fun e => match e with | .openConn k => some k | _ => none)

/-
Section 7: the transform pipeline (`eligibilty_api_schedule.py`,
lines 43-112, `_eligibility_iqama_job`).

Rows are opaque values of a type `Row`; the collaborators imported from the
missing `src.utils` module (`map_row`, `Iqama_table`, `change_date`,
`send_json_to_api`/`create_json_payload`, `extract_code`/`extract_outcome`/
`extract_note`) and the column decorations are opaque per-row or per-frame
functions supplied by the environment. `pd.read_sql_query` either returns a
list of rows or raises. The trace records, in program order, every log,
snapshot-file write, destination-table write and `error_handler` call the
job performs. `extract_fields` returns `none` for a row that the final
`dropna()` discards.
-/

/-- One observable side effect of the pipeline. -/
inductive JobEvent (Row : Type) where
  | logInfo (msg : String)
  | csvWrite (path : String)
  | updateTable (tableName : String) (rows : List Row)
  | alertError (jobName : String) (errorInfo : String)

/-- Collaborator outcomes for one run of the pipeline. -/
structure JobEnv (Row : Type) where
  fetchResult : Except PyExc (List Row)
  map_row : Row → Row
  iqama_table : List Row → List Row
  add_insertion_date : Row → Row
  change_dates : Row → Row
  api_response : Row → Row
  extract_fields : Row → Option Row
  project_columns : Row → Row
  source : String
  timestamp : String

/-- Embedding of `df.drop_duplicates(keep="last")` on whole rows (the call
passes no column subset, so two rows are duplicates exactly when they are
equal): keep an occurrence only when no equal row occurs later. -/
def drop_duplicates_keep_last {Row : Type} [DecidableEq Row] : List Row → List Row
  | [] => []
  | x :: xs =>
    if x ∈ xs then drop_duplicates_keep_last xs else x :: drop_duplicates_keep_last xs

/-- Embedding of `_eligibility_iqama_job`: the returned value is `ok` when
the job returns (normally or through its `except Exception` handler) and
`error` when a non-`Exception` throwable propagates; the trace lists its
side effects in program order. -/
def eligibility_iqama_job {Row : Type} [DecidableEq Row] (env : JobEnv Row) :
    Except PyExc Unit × List (JobEvent Row) :=
  let job_name := "IQAMA_JOB_" ++ env.source
  let start : JobEvent Row := .logInfo ("[" ++ env.source ++ "] ===== Starting IQAMA job =====")
  let fetchLog : JobEvent Row := .logInfo ("[" ++ env.source ++ "] Fetching data since time window")
  match env.fetchResult with
  | .error (.baseExc msg trace) => (.error (.baseExc msg trace), [start, fetchLog])
  | .error (.exc msg trace) =>
    (.ok (), [start, fetchLog, .alertError job_name (msg ++ "\n\n" ++ trace)])
  | .ok rows =>
    let df_new := rows.map env.map_row
    let inCsv : JobEvent Row := .csvWrite ("data/in/IN_DATA_" ++ env.timestamp ++ ".csv")
    if df_new.isEmpty then
      (.ok (), [start, fetchLog, inCsv,
        .logInfo ("[" ++ env.source ++ "] No new data to process")])
    else
      let fetchedLog : JobEvent Row := .logInfo ("[" ++ env.source ++ "] Fetched new records")
      let df_dedup := drop_duplicates_keep_last df_new
      let result_df := (env.iqama_table df_dedup).map env.add_insertion_date
      let iqamaEvents : List (JobEvent Row) :=
        if env.source = "ORACLE_LIVE" then
          [.csvWrite ("data/OSIS/iqama_" ++ env.timestamp ++ ".csv"),
           .updateTable "dbo.Iqama_data" result_df]
        else if env.source = "AHJ_DOT-CARE" then
          [.csvWrite ("data/DOT-CARE/iqama_" ++ env.timestamp ++ ".csv"),
           .updateTable "Iqama_dotcare" result_df]
        else []
      let apiLog : JobEvent Row := .logInfo ("[" ++ env.source ++ "] Starting eligibility API requests...")
      let df_api := (df_dedup.map env.change_dates).map env.api_response
      let beforeApiCsv : JobEvent Row := .csvWrite ("data/in/before_api_" ++ env.timestamp ++ ".csv")
      let df_final := df_api.filterMap env.extract_fields
      let eligEvents : List (JobEvent Row) :=
        if env.source = "ORACLE_LIVE" then
          [.csvWrite ("data/OSIS/eligibilty_" ++ env.timestamp ++ ".csv"),
           .updateTable "EligibilityResponses" (df_final.map env.project_columns)]
        else if env.source = "AHJ_DOT-CARE" then
          [.csvWrite ("data/DOT-CARE/eligibilty_" ++ env.timestamp ++ ".csv"),
           .updateTable "Eligibility_dotcare" (df_final.map env.project_columns)]
        else []
      (.ok (),
        [start, fetchLog, inCsv, fetchedLog] ++ iqamaEvents ++ [apiLog, beforeApiCsv] ++
          eligEvents ++ [.logInfo ("[" ++ env.source ++ "] ===== Job completed =====")])

/-- Specification-side description of keep-last de-duplication, per index:
the row at index `i` is kept exactly when the same row value does not occur
again at a later index. -/
def lastOccKeep {Row : Type} [DecidableEq Row] (l : List Row) (i : Nat) : Option Row :=
  match l[i]? with
  | some x => if x ∈ l.drop (i + 1) then none else some x
  | none => none

/-- Specification-side description of keep-last de-duplication: each
duplicated row survives through its last-seen occurrence, in index order. -/
def lastOccurrenceRows {Row : Type} [DecidableEq Row] (l : List Row) : List Row :=
  (List.range l.length).filterMap (lastOccKeep l)

/-- Snapshot-file writes of a pipeline trace. -/
def csvWrites {Row : Type} (tr : List (JobEvent Row)) : List String :=
  tr.filterMap (fun e => match e with | .csvWrite p => some p | _ => none)

/-- Destination-table writes of a pipeline trace. -/
def tableWrites {Row : Type} (tr : List (JobEvent Row)) : List (String × List Row) :=
  tr.filterMap (fun e => match e with | .updateTable n r => some (n, r) | _ => none)

/-- Calls to `error_handler` in a pipeline trace. -/
def alertCalls {Row : Type} (tr : List (JobEvent Row)) : List (String × String) :=
  tr.filterMap (fun e => match e with | .alertError n i => some (n, i) | _ => none)

/-- Concrete sink environment for closed examples: storage healthy. -/
def sampleAlertEnv : AlertEnv where
  dirExists := true
  mkdirOk := true
  writeOk := true
  historyOk := true
  emailOk := true
  timestamp := "20250101_120000"
  hostname := "HOST01"
  dirListing := []
  removeOk := fun _ => true

/-- Concrete sink environment for closed examples: directory missing and
directory creation failing. -/
def brokenDirAlertEnv : AlertEnv where
  dirExists := false
  mkdirOk := false
  writeOk := true
  historyOk := true
  emailOk := false
  timestamp := "20250101_120000"
  hostname := "HOST01"
  dirListing := []
  removeOk := fun _ => true

/-- Concrete pipeline environment for closed examples: the fetch succeeds
with zero rows. -/
def emptyFetchJobEnv : JobEnv Nat where
  fetchResult := .ok []
  map_row := id
  iqama_table := id
  add_insertion_date := id
  change_dates := id
  api_response := id
  extract_fields := some
  project_columns := id
  source := "AHJ_DOT-CARE"
  timestamp := "2025-01-01_12-00"

/-- Concrete pipeline environment for closed examples: the fetch succeeds
with a batch containing a duplicated row. -/
def dupFetchJobEnv : JobEnv Nat where
  fetchResult := .ok [1, 2, 1]
  map_row := id
  iqama_table := id
  add_insertion_date := id
  change_dates := id
  api_response := id
  extract_fields := some
  project_columns := id
  source := "AHJ_DOT-CARE"
  timestamp := "2025-01-01_12-00"

/-- Concrete attempt schedule for closed examples: every attempt fails with
the same transient database error. -/
def failingAttempts : Nat → AttemptOutcome Nat := fun _ => .sqlError "boom"

/-- Concrete attempt schedule for closed examples: the first attempt fails
with a transient database error and the second succeeds. -/
def recoveringAttempts : Nat → AttemptOutcome Nat :=
  fun k => if k = 0 then .sqlError "transient" else .ok 7

/-- Concrete alerts directory for closed examples: 101 alert files with
modification times 0 to 100. -/
def dir101 : List (List Char × Nat) :=
  (List.range 101).map (fun i => ("ALERT_A.txt".data, i))

/-- Concrete alerts directory for closed examples: 101 alert files plus the
history log. -/
def dirHist : List (List Char × Nat) :=
  dir101 ++ [("alert_history.log".data, 200)]

/-
Section 8: theorems for the claims.
-/

/-- C1. The spec claims the blackout window is [22:00, 02:00) wrapping
midnight, and the comments in the source say the same ("blackout period
(11 PM to 3 AM)"); but the guard `24 <= current_hour` is unsatisfiable for a
real clock hour (0-23), so the code returns `false` at hours 22 and 23: the
actual blackout set is only hours 0 and 1. The code contradicts its own
comments; the claimed window disagrees with the code at 22:00-23:59. -/
theorem is_blackout_period_dead_branch :
    is_blackout_period 22 = false ∧ is_blackout_period 23 = false ∧
    ∀ h : Fin 24, is_blackout_period h.val = decide (h.val < 2) := by
  decide

/-- Helper: membership through one single-character replacement map. -/
lemma mem_map_replace {old new x : Char} {l : List Char}
    (hx : x ∈ l.map (fun c => if c = old then new else c)) :
    x = new ∨ (x ∈ l ∧ x ≠ old) := by
  rcases List.mem_map.mp hx with ⟨c, hc, hcx⟩
  by_cases hco : c = old
  · simp [hco] at hcx; exact Or.inl hcx.symm
  · simp [hco] at hcx; exact Or.inr ⟨hcx ▸ hc, hcx ▸ hco⟩

/-- Helper: neither `/` nor `\` survives the sanitisation. -/
lemma sanitize_alert_type_no_sep (subject : String) :
    '/' ∉ sanitize_alert_type subject ∧ '\\' ∉ sanitize_alert_type subject := by
  constructor
  · intro hmem
    simp only [sanitize_alert_type] at hmem
    have h3 := List.take_subset 30 _ hmem
    rcases mem_map_replace h3 with h | ⟨h2, _⟩
    · exact absurd h (by decide)
    · rcases mem_map_replace h2 with h | ⟨_, hne⟩
      · exact absurd h (by decide)
      · exact hne rfl
  · intro hmem
    simp only [sanitize_alert_type] at hmem
    have h3 := List.take_subset 30 _ hmem
    rcases mem_map_replace h3 with h | ⟨_, hne⟩
    · exact absurd h (by decide)
    · exact hne rfl

/-- C7. For every subject (including subjects with path-unsafe characters)
and every timestamp free of path separators (as `strftime("%Y%m%d_%H%M%S")`
always is), the generated alert file name contains no `/` and no `\`, and
the sanitised subject portion is truncated to at most 30 characters, the
length bound in the source. -/
theorem alert_filename_path_safe (timestamp subject : String)
    (hts1 : '/' ∉ timestamp.data) (hts2 : '\\' ∉ timestamp.data) :
    '/' ∉ alert_filename timestamp subject ∧
    '\\' ∉ alert_filename timestamp subject ∧
    (sanitize_alert_type subject).length ≤ 30 := by
  refine ⟨?_, ?_, ?_⟩
  · intro hmem
    simp only [alert_filename, List.mem_append] at hmem
    rcases hmem with (((h | h) | h) | h) | h
    · exact absurd h (by decide)
    · exact hts1 h
    · exact absurd h (by decide)
    · exact (sanitize_alert_type_no_sep subject).1 h
    · exact absurd h (by decide)
  · intro hmem
    simp only [alert_filename, List.mem_append] at hmem
    rcases hmem with (((h | h) | h) | h) | h
    · exact absurd h (by decide)
    · exact hts2 h
    · exact absurd h (by decide)
    · exact (sanitize_alert_type_no_sep subject).2 h
    · exact absurd h (by decide)
  · exact List.length_take_le 30 _

/-- C7 witness: a concrete subject full of path-unsafe characters and a
concrete strftime-shaped timestamp. -/
theorem alert_filename_path_safe_witness :
    '/' ∉ alert_filename "20250101_120000" "a/b\\c d e/f\\g h i j k l m n o p q r s t u v w" ∧
    '\\' ∉ alert_filename "20250101_120000" "a/b\\c d e/f\\g h i j k l m n o p q r s t u v w" ∧
    (sanitize_alert_type "a/b\\c d e/f\\g h i j k l m n o p q r s t u v w").length ≤ 30 :=
  alert_filename_path_safe "20250101_120000" "a/b\\c d e/f\\g h i j k l m n o p q r s t u v w"
    (by decide) (by decide)

/-- Helper: the cleanup step writes no alert file. -/
lemma recordedAlerts_cleanup_events (env : AlertEnv) :
    recordedAlerts (cleanup_events env) = [] := by
  unfold cleanup_events
  by_cases h : (env.dirExists || env.mkdirOk) = true
  · simp only [h, if_true]
    induction cleanup_removals env.dirListing env.removeOk with
    | nil => rfl
    | cons f fs ih => simpa [recordedAlerts] using ih
  · simp only [Bool.not_eq_true] at h
    simp [h, recordedAlerts]

/-- Helper: the email step writes no alert file. -/
lemma recordedAlerts_notify_email (env : AlertEnv) (subject body : String) :
    recordedAlerts (notify_email env subject body) = [] := by
  unfold notify_email
  by_cases h : env.emailOk = true <;> simp [h, recordedAlerts]

/-- Helper: `recordedAlerts` distributes over trace concatenation. -/
lemma recordedAlerts_append (a b : List AlertEvent) :
    recordedAlerts (a ++ b) = recordedAlerts a ++ recordedAlerts b :=
  List.filterMap_append a b _

/-- Helper: with the directory present and both file writes succeeding,
`send_alert` records exactly the one alert it was given. -/
lemma recordedAlerts_send_alert (env : AlertEnv) (subject body : String)
    (hdir : env.dirExists = true) (hw : env.writeOk = true) (hh : env.historyOk = true) :
    recordedAlerts (send_alert env subject body).2 =
      [(alert_filename env.timestamp subject, subject, body)] := by
  have hwr : write_alert_to_file env subject body =
      (some (alert_filename env.timestamp subject),
        [.writeAlertFile (alert_filename env.timestamp subject) subject body,
         .appendHistory subject, .logInfo "Alert written to file"]) := by
    simp [write_alert_to_file, ensure_alert_directory, hdir, hw, hh]
  have h2 : (send_alert env subject body).2 =
      (write_alert_to_file env subject body).2 ++ cleanup_events env ++
        notify_email env subject body := rfl
  rw [h2, hwr, recordedAlerts_append, recordedAlerts_append,
    recordedAlerts_cleanup_events, recordedAlerts_notify_email]
  simp [recordedAlerts]

/-- C5. The record operation of the alert sink never raises (it is a total
function of its environment, every internal step being wrapped in the
source) and returns a boolean delivered flag; when the alerts directory is
missing and its creation fails, no alert file is written, the failure is
logged locally, and the result is `false` rather than an exception. -/
theorem send_alert_mkdir_failure (env : AlertEnv) (subject body : String)
    (hdir : env.dirExists = false) (hmk : env.mkdirOk = false) :
    (send_alert env subject body).1 = false ∧
    recordedAlerts (send_alert env subject body).2 = [] ∧
    AlertEvent.logError "Failed to create alerts directory" ∈ (send_alert env subject body).2 := by
  have hwr : write_alert_to_file env subject body =
      (none, [.logError "Failed to create alerts directory"]) := by
    simp [write_alert_to_file, ensure_alert_directory, hdir, hmk]
  have h2 : (send_alert env subject body).2 =
      (write_alert_to_file env subject body).2 ++ cleanup_events env ++
        notify_email env subject body := rfl
  refine ⟨?_, ?_, ?_⟩
  · simp [send_alert, hwr]
  · rw [h2, hwr, recordedAlerts_append, recordedAlerts_append,
      recordedAlerts_cleanup_events, recordedAlerts_notify_email]
    simp [recordedAlerts]
  · rw [h2, hwr]
    simp

/-- C5 witness: the concrete broken-directory environment. -/
theorem send_alert_mkdir_failure_witness :
    (send_alert brokenDirAlertEnv "Test Alert" "body").1 = false ∧
    recordedAlerts (send_alert brokenDirAlertEnv "Test Alert" "body").2 = [] ∧
    AlertEvent.logError "Failed to create alerts directory" ∈
      (send_alert brokenDirAlertEnv "Test Alert" "body").2 :=
  send_alert_mkdir_failure brokenDirAlertEnv "Test Alert" "body" rfl rfl

/-- C3 counterexample: the claim quantifies over exceptions of any kind, but
`except Exception` does not catch a `BaseException` that is not an
`Exception`: a wrapped function raising `SystemExit` propagates it out of
`safe_execute`, and no alert is recorded. -/
theorem safe_execute_base_exception_escapes :
    (@safe_execute Unit sampleAlertEnv
        (Except.error (PyExc.baseExc "SystemExit" "Traceback")) "IQAMA_JOB_X").1 =
      Except.error (PyExc.baseExc "SystemExit" "Traceback") ∧
    recordedAlerts (@safe_execute Unit sampleAlertEnv
        (Except.error (PyExc.baseExc "SystemExit" "Traceback")) "IQAMA_JOB_X").2 = [] := by
  exact ⟨rfl, rfl⟩

/-- C3 (amended). For every wrapped function that raises an instance of
`Exception` — the class `except Exception` catches; `SystemExit` and
`KeyboardInterrupt` are outside it — `safe_execute` returns normally, and,
with the sink storage available (directory present, file write and history
append succeeding), exactly one alert is recorded, whose subject contains
the job name and whose body contains the exception message and the stack
trace. -/
theorem safe_execute_isolates (α : Type) (env : AlertEnv) (msg trace job_name : String)
    (hdir : env.dirExists = true) (hw : env.writeOk = true) (hh : env.historyOk = true) :
    (@safe_execute α env (Except.error (PyExc.exc msg trace)) job_name).1 = Except.ok none ∧
    ∃ s b,
      recordedAlerts (@safe_execute α env (Except.error (PyExc.exc msg trace)) job_name).2 =
        [(alert_filename env.timestamp s, s, b)] ∧
      (∃ p q, s = p ++ job_name ++ q) ∧
      (∃ p q, b = p ++ msg ++ q) ∧
      (∃ p q, b = p ++ trace ++ q) := by
  refine ⟨rfl, ?_⟩
  refine ⟨"Error in " ++ job_name ++ " on " ++ env.hostname,
    "An error occurred in the " ++ job_name ++ " job on " ++ env.hostname ++
      " at " ++ env.timestamp ++ ".\n\n" ++
      "Error details:\n" ++ (msg ++ "\n\n" ++ trace) ++ "\n\n" ++
      "Please check the scheduler.log file for more information.", ?_, ?_, ?_, ?_⟩
  · show recordedAlerts (error_handler env job_name (msg ++ "\n\n" ++ trace)) = _
    unfold error_handler
    simp only [recordedAlerts, List.filterMap_cons]
    exact recordedAlerts_send_alert env _ _ hdir hw hh
  · exact ⟨"Error in ", " on " ++ env.hostname, by simp [String.append_assoc]⟩
  · refine ⟨"An error occurred in the " ++ job_name ++ " job on " ++ env.hostname ++
      " at " ++ env.timestamp ++ ".\n\n" ++ "Error details:\n",
      "\n\n" ++ trace ++ "\n\n" ++
        "Please check the scheduler.log file for more information.", ?_⟩
    simp [String.append_assoc]
  · refine ⟨"An error occurred in the " ++ job_name ++ " job on " ++ env.hostname ++
      " at " ++ env.timestamp ++ ".\n\n" ++ "Error details:\n" ++ msg ++ "\n\n",
      "\n\n" ++ "Please check the scheduler.log file for more information.", ?_⟩
    simp [String.append_assoc]

/-- C3 witness: a concrete raising function under the healthy sink
environment. -/
theorem safe_execute_isolates_witness :
    (@safe_execute Unit sampleAlertEnv
        (Except.error (PyExc.exc "boom" "Traceback (most recent call last)")) "IQAMA_JOB_X").1 =
      Except.ok none ∧
    ∃ s b,
      recordedAlerts (@safe_execute Unit sampleAlertEnv
          (Except.error (PyExc.exc "boom" "Traceback (most recent call last)"))
          "IQAMA_JOB_X").2 =
        [(alert_filename sampleAlertEnv.timestamp s, s, b)] ∧
      (∃ p q, s = p ++ "IQAMA_JOB_X" ++ q) ∧
      (∃ p q, b = p ++ "boom" ++ q) ∧
      (∃ p q, b = p ++ "Traceback (most recent call last)" ++ q) :=
  safe_execute_isolates Unit sampleAlertEnv "boom" "Traceback (most recent call last)"
    "IQAMA_JOB_X" rfl rfl rfl

/-- C2 counterexample: with a fetch returning zero rows, the pipeline still
writes the raw-intake snapshot `data/in/IN_DATA_<timestamp>.csv`, because
the `to_csv` call at line 59 precedes the `df_new.empty` check at line 61;
the claim that no snapshot file is written on an empty fetch is false. -/
theorem eligibility_job_empty_fetch_writes_snapshot :
    emptyFetchJobEnv.fetchResult = Except.ok ([] : List Nat) ∧
    csvWrites (eligibility_iqama_job emptyFetchJobEnv).2 =
      ["data/in/IN_DATA_" ++ emptyFetchJobEnv.timestamp ++ ".csv"] :=
  ⟨rfl, rfl⟩

/-- C2 (amended). For every run of the transform pipeline in which the
data-source fetch returns zero rows, the pipeline first writes the
raw-intake snapshot `data/in/IN_DATA_<timestamp>.csv` (that write precedes
the emptiness check in the source), and then logs and returns without
writing any destination-table rows, without any further snapshot file, and
without producing any alert. -/
theorem eligibility_job_empty_fetch (Row : Type) [inst : DecidableEq Row]
    (env : JobEnv Row) (hfetch : env.fetchResult = Except.ok ([] : List Row)) :
    (eligibility_iqama_job env).1 = Except.ok () ∧
    tableWrites (eligibility_iqama_job env).2 = [] ∧
    alertCalls (eligibility_iqama_job env).2 = [] ∧
    csvWrites (eligibility_iqama_job env).2 =
      ["data/in/IN_DATA_" ++ env.timestamp ++ ".csv"] ∧
    (eligibility_iqama_job env).2.getLast? =
      some (.logInfo ("[" ++ env.source ++ "] No new data to process")) := by
  have htrace : eligibility_iqama_job env =
      (Except.ok (),
        [.logInfo ("[" ++ env.source ++ "] ===== Starting IQAMA job ====="),
         .logInfo ("[" ++ env.source ++ "] Fetching data since time window"),
         .csvWrite ("data/in/IN_DATA_" ++ env.timestamp ++ ".csv"),
         .logInfo ("[" ++ env.source ++ "] No new data to process")]) := by
    simp [eligibility_iqama_job, hfetch]
  rw [htrace]
  exact ⟨rfl, rfl, rfl, rfl, rfl⟩

/-- C2 witness: the concrete zero-row environment. -/
theorem eligibility_job_empty_fetch_witness :
    (eligibility_iqama_job emptyFetchJobEnv).1 = Except.ok () ∧
    tableWrites (eligibility_iqama_job emptyFetchJobEnv).2 = [] ∧
    alertCalls (eligibility_iqama_job emptyFetchJobEnv).2 = [] ∧
    csvWrites (eligibility_iqama_job emptyFetchJobEnv).2 =
      ["data/in/IN_DATA_" ++ emptyFetchJobEnv.timestamp ++ ".csv"] ∧
    (eligibility_iqama_job emptyFetchJobEnv).2.getLast? =
      some (.logInfo ("[" ++ emptyFetchJobEnv.source ++ "] No new data to process")) :=
  eligibility_job_empty_fetch Nat emptyFetchJobEnv rfl

/-- Helper: the per-index keep-last test commutes with consing a row. -/
lemma lastOccKeep_cons {Row : Type} [inst : DecidableEq Row] (x : Row) (xs : List Row)
    (i : Nat) : lastOccKeep (x :: xs) (i + 1) = lastOccKeep xs i := by
  simp [lastOccKeep]

/-- Helper: the per-index keep-last test at the head of a list. -/
lemma lastOccKeep_zero {Row : Type} [inst : DecidableEq Row] (x : Row) (xs : List Row) :
    lastOccKeep (x :: xs) 0 = if x ∈ xs then none else some x := by
  simp [lastOccKeep]

/-- Helper: membership is preserved by keep-last de-duplication. -/
lemma mem_drop_duplicates_keep_last {Row : Type} [inst : DecidableEq Row] (x : Row) :
    ∀ l : List Row, x ∈ drop_duplicates_keep_last l ↔ x ∈ l := by
  intro l
  induction l with
  | nil => rfl
  | cons y xs ih =>
    by_cases hy : y ∈ xs
    · rw [drop_duplicates_keep_last, if_pos hy, ih]
      constructor
      · exact fun h => List.mem_cons_of_mem y h
      · intro h
        rcases List.mem_cons.mp h with h | h
        · exact h ▸ hy
        · exact h
    · rw [drop_duplicates_keep_last, if_neg hy]
      simp [ih]

/-- Helper: keep-last de-duplication leaves no duplicate rows. -/
lemma nodup_drop_duplicates_keep_last {Row : Type} [inst : DecidableEq Row] :
    ∀ l : List Row, (drop_duplicates_keep_last l).Nodup := by
  intro l
  induction l with
  | nil => exact List.nodup_nil
  | cons y xs ih =>
    by_cases hy : y ∈ xs
    · rw [drop_duplicates_keep_last, if_pos hy]
      exact ih
    · rw [drop_duplicates_keep_last, if_neg hy]
      exact List.Nodup.cons (fun h => hy ((mem_drop_duplicates_keep_last y xs).mp h)) ih

/-- Helper: keep-last de-duplication retains exactly the last occurrence of
each row value, in index order. -/
lemma drop_duplicates_keep_last_eq_lastOcc {Row : Type} [inst : DecidableEq Row] :
    ∀ l : List Row, drop_duplicates_keep_last l = lastOccurrenceRows l := by
  intro l
  induction l with
  | nil => rfl
  | cons x xs ih =>
    have hfun : lastOccKeep (x :: xs) ∘ Nat.succ = lastOccKeep xs :=
      funext fun i => lastOccKeep_cons x xs i
    have hmap : (List.map Nat.succ (List.range xs.length)).filterMap
        (lastOccKeep (x :: xs)) = lastOccurrenceRows xs := by
      rw [List.filterMap_map, hfun, lastOccurrenceRows]
    rw [lastOccurrenceRows, List.length_cons, List.range_succ_eq_map,
      List.filterMap_cons, lastOccKeep_zero, hmap]
    by_cases hx : x ∈ xs
    · rw [drop_duplicates_keep_last, if_pos hx, if_pos hx, ih]
    · rw [drop_duplicates_keep_last, if_neg hx, if_neg hx, ih]

/-- C9. Keep-last de-duplication as performed by the pipeline
(`drop_duplicates(keep="last")` with no column subset, so the whole row is
the key) retains exactly one row per row value — the last-seen occurrence,
in index order — and the batch handed to the first destination-table write
is the de-duplicated one (positional indexing, the embedded form of
`reset_index(drop=True)`). -/
theorem job_dedup_last_write_wins (Row : Type) [inst : DecidableEq Row] (l : List Row) :
    drop_duplicates_keep_last l = lastOccurrenceRows l ∧
    (drop_duplicates_keep_last l).Nodup ∧
    (∀ x : Row, x ∈ drop_duplicates_keep_last l ↔ x ∈ l) ∧
    ∀ env : JobEnv Row, env.fetchResult = Except.ok l →
      l.map env.map_row ≠ [] → env.source = "AHJ_DOT-CARE" →
      (tableWrites (eligibility_iqama_job env).2).head? =
        some ("Iqama_dotcare",
          (env.iqama_table (drop_duplicates_keep_last (l.map env.map_row))).map
            env.add_insertion_date) := by
  refine ⟨drop_duplicates_keep_last_eq_lastOcc l, nodup_drop_duplicates_keep_last l,
    fun x => mem_drop_duplicates_keep_last x l, ?_⟩
  intro env hfetch hne hsrc
  simp [eligibility_iqama_job, hfetch, hsrc, tableWrites, List.isEmpty_iff, hne]

/-- C9 witness: a concrete batch with a duplicated row, through the
concrete pipeline environment. -/
theorem job_dedup_last_write_wins_witness :
    drop_duplicates_keep_last [1, 2, 1] = lastOccurrenceRows [1, 2, 1] ∧
    (tableWrites (eligibility_iqama_job dupFetchJobEnv).2).head? =
      some ("Iqama_dotcare",
        (dupFetchJobEnv.iqama_table
            (drop_duplicates_keep_last ([1, 2, 1].map dupFetchJobEnv.map_row))).map
          dupFetchJobEnv.add_insertion_date) :=
  ⟨(job_dedup_last_write_wins Nat [1, 2, 1]).1,
   (job_dedup_last_write_wins Nat [1, 2, 1]).2.2.2 dupFetchJobEnv rfl (by decide) rfl⟩

/-- Helper: opened-connection indices distribute over trace concatenation. -/
lemma openedConns_append (a b : List FetchEvent) :
    openedConns (a ++ b) = openedConns a ++ openedConns b :=
  List.filterMap_append a b _

/-- Helper: connection events distribute over trace concatenation. -/
lemma connEvents_append (a b : List FetchEvent) :
    connEvents (a ++ b) = connEvents a ++ connEvents b :=
  List.filterMap_append a b _

/-- Helper: an opened connection heads the opened list. -/
lemma openedConns_cons_open (k : Nat) (l : List FetchEvent) :
    openedConns (FetchEvent.openConn k :: l) = k :: openedConns l := rfl

/-- Helper: a close event adds no opened connection. -/
lemma openedConns_cons_close (k : Nat) (l : List FetchEvent) :
    openedConns (FetchEvent.closeConn k :: l) = openedConns l := rfl

/-- Helper: a sleep event adds no opened connection. -/
lemma openedConns_cons_sleep (d : Nat) (l : List FetchEvent) :
    openedConns (FetchEvent.sleepDelay d :: l) = openedConns l := rfl

/-- Helper: an open event heads the connection events. -/
lemma connEvents_cons_open (k : Nat) (l : List FetchEvent) :
    connEvents (FetchEvent.openConn k :: l) = (true, k) :: connEvents l := rfl

/-- Helper: a close event heads the connection events. -/
lemma connEvents_cons_close (k : Nat) (l : List FetchEvent) :
    connEvents (FetchEvent.closeConn k :: l) = (false, k) :: connEvents l := rfl

/-- Helper: an optional sleep contributes no opened connection. -/
lemma openedConns_sleep_ite (c : Prop) [inst : Decidable c] (d : Nat) :
    openedConns (if c then [FetchEvent.sleepDelay d] else []) = [] := by
  split <;> rfl

/-- Helper: an optional sleep contributes no connection event. -/
lemma connEvents_sleep_ite (c : Prop) [inst : Decidable c] (d : Nat) :
    connEvents (if c then [FetchEvent.sleepDelay d] else []) = [] := by
  split <;> rfl

/-- Helper: if attempt `k + j` succeeds after `j` transient failures, the
retry loop returns those rows and opens exactly `j + 1` connections. -/
lemma fetch_loop_success {Rows : Type} (attempt : Nat → AttemptOutcome Rows) (d : Nat) :
    ∀ fuel k j lastErr rows, j < fuel →
      (∀ i, i < j → ∃ e, attempt (k + i) = AttemptOutcome.sqlError e) →
      attempt (k + j) = AttemptOutcome.ok rows →
      (fetch_loop attempt d k fuel lastErr).1 = Except.ok rows ∧
      (openedConns (fetch_loop attempt d k fuel lastErr).2).length = j + 1 := by
  intro fuel
  induction fuel with
  | zero => intro k j lastErr rows hj; exact absurd hj (Nat.not_lt_zero j)
  | succ fuel ih =>
    intro k j lastErr rows hj hfail hok
    cases j with
    | zero =>
      rw [Nat.add_zero] at hok
      constructor
      · simp only [fetch_loop, hok]
      · simp only [fetch_loop, hok]
        rfl
    | succ j =>
      obtain ⟨e, he⟩ := hfail 0 (Nat.succ_pos j)
      rw [Nat.add_zero] at he
      have hih := ih (k + 1) j (some e) rows (by omega)
        (fun i hi => by
          obtain ⟨e2, he2⟩ := hfail (i + 1) (by omega)
          exact ⟨e2, by rw [← he2]; congr 1; omega⟩)
        (by rw [← hok]; congr 1; omega)
      simp only [fetch_loop, he]
      refine ⟨hih.1, ?_⟩
      rw [openedConns_cons_open, openedConns_append, openedConns_sleep_ite,
        openedConns_cons_close, List.nil_append, List.length_cons, hih.2]

/-- C4. With `max_retries = 3`: if attempts 0, 1, 2 and 3 all fail with
transient database errors, `fetch_data` performs exactly 4 attempts with a
sleep of `retry_delay` between consecutive attempts (and none after the
last) and then raises the last observed error; and if attempt `j ≤ 3`
succeeds after `j` transient failures, it returns the rows of that attempt
immediately, having opened only connections 0 through `j`. -/
theorem fetch_data_retry_policy {Rows : Type} (attempt : Nat → AttemptOutcome Rows)
    (d : Nat) (e0 e1 e2 e3 : String) (rows : Rows) (j : Nat) :
    (attempt 0 = AttemptOutcome.sqlError e0 → attempt 1 = AttemptOutcome.sqlError e1 →
      attempt 2 = AttemptOutcome.sqlError e2 → attempt 3 = AttemptOutcome.sqlError e3 →
      fetch_data attempt 3 d =
        (Except.error (FetchErr.sql e3),
          [FetchEvent.openConn 0, FetchEvent.sleepDelay d, FetchEvent.closeConn 0,
           FetchEvent.openConn 1, FetchEvent.sleepDelay d, FetchEvent.closeConn 1,
           FetchEvent.openConn 2, FetchEvent.sleepDelay d, FetchEvent.closeConn 2,
           FetchEvent.openConn 3, FetchEvent.closeConn 3])) ∧
    (j ≤ 3 → (∀ i, i < j → ∃ e, attempt i = AttemptOutcome.sqlError e) →
      attempt j = AttemptOutcome.ok rows →
      (fetch_data attempt 3 d).1 = Except.ok rows ∧
      (openedConns (fetch_data attempt 3 d).2).length = j + 1) := by
  constructor
  · intro h0 h1 h2 h3
    simp [fetch_data, fetch_loop, h0, h1, h2, h3]
  · intro hj hfail hok
    have h := fetch_loop_success attempt d 4 0 j none rows (by omega)
      (fun i hi => by simpa using hfail i hi) (by simpa using hok)
    exact ⟨h.1, h.2⟩

/-- C4 witness: the all-failing and the recovering concrete attempt
schedules, with `retry_delay = 5`. -/
theorem fetch_data_retry_policy_witness :
    fetch_data failingAttempts 3 5 =
      (Except.error (FetchErr.sql "boom"),
        [FetchEvent.openConn 0, FetchEvent.sleepDelay 5, FetchEvent.closeConn 0,
         FetchEvent.openConn 1, FetchEvent.sleepDelay 5, FetchEvent.closeConn 1,
         FetchEvent.openConn 2, FetchEvent.sleepDelay 5, FetchEvent.closeConn 2,
         FetchEvent.openConn 3, FetchEvent.closeConn 3]) ∧
    (fetch_data recoveringAttempts 3 5).1 = Except.ok 7 ∧
    (openedConns (fetch_data recoveringAttempts 3 5).2).length = 2 :=
  ⟨(fetch_data_retry_policy failingAttempts 5 "boom" "boom" "boom" "boom" 0 0).1
      rfl rfl rfl rfl,
   (fetch_data_retry_policy recoveringAttempts 5 "" "" "" "" 7 1).2 (by omega)
      (fun i hi => ⟨"transient", by
        have : i = 0 := by omega
        rw [this]; rfl⟩)
      rfl⟩

/-- C8. For every attempt schedule, every retry budget and every delay, the
connection events of a `fetch_data` trace are a concatenation of
open-then-close pairs: each connection opened during an attempt is closed
before the function returns or raises and before any further connection is
opened, so no connection is held across retries and every exit path
(success, propagating exception, exhausted retries) releases it. -/
theorem fetch_data_connection_scoped {Rows : Type} (attempt : Nat → AttemptOutcome Rows)
    (max_retries retry_delay : Nat) :
    ∃ ks : List Nat,
      connEvents (fetch_data attempt max_retries retry_delay).2 =
        ks.flatMap (fun k => [(true, k), (false, k)]) := by
  suffices h : ∀ fuel k0 le0, ∃ ks : List Nat,
      connEvents (fetch_loop attempt retry_delay k0 fuel le0).2 =
        ks.flatMap (fun k => [(true, k), (false, k)]) from
    h (max_retries + 1) 0 none
  intro fuel
  induction fuel with
  | zero => intro k0 le0; exact ⟨[], rfl⟩
  | succ fuel ih =>
    intro k0 le0
    cases hA : attempt k0 with
    | ok rows =>
      refine ⟨[k0], ?_⟩
      simp only [fetch_loop, hA]
      rfl
    | connectError e =>
      obtain ⟨ks, hks⟩ := ih (k0 + 1) (some e)
      refine ⟨ks, ?_⟩
      simp only [fetch_loop, hA]
      rw [connEvents_append, connEvents_sleep_ite, List.nil_append]
      exact hks
    | sqlError e =>
      obtain ⟨ks, hks⟩ := ih (k0 + 1) (some e)
      refine ⟨k0 :: ks, ?_⟩
      simp only [fetch_loop, hA]
      rw [connEvents_cons_open, connEvents_append, connEvents_sleep_ite,
        List.nil_append, connEvents_cons_close, hks, List.flatMap_cons]
      rfl
    | otherError e =>
      refine ⟨[k0], ?_⟩
      simp only [fetch_loop, hA]
      rfl

/-- Helper: every file the cleanup removes passed the removal guard and is
an alert file of the directory listing. -/
lemma cleanup_removals_subset (dir : List (List Char × Nat)) (removeOk : List Char → Bool) :
    ∀ f ∈ cleanup_removals dir removeOk,
      removeOk f.1 = true ∧ f ∈ dir.filter (fun g => is_alert_filename g.1) := by
  intro f hf
  simp only [cleanup_removals] at hf
  by_cases hbig : MAX_ALERTS < (dir.filter (fun g => is_alert_filename g.1)).length
  · rw [if_pos hbig] at hf
    rcases List.mem_filter.mp hf with ⟨hft, hok⟩
    refine ⟨hok, ?_⟩
    have hmem := List.take_subset _ _ hft
    exact (List.mergeSort_perm _ _).mem_iff.mp hmem
  · rw [if_neg hbig] at hf
    exact absurd hf (List.not_mem_nil f)

/-- Helper: filtering a duplicate-free list by non-membership in its own
take-part yields its drop-part. -/
lemma filter_not_mem_take (S : List (List Char × Nat)) (m : Nat) (hndS : S.Nodup) :
    S.filter (fun f => !(decide (f ∈ S.take m))) = S.drop m := by
  have key : ∀ T D : List (List Char × Nat), T.Disjoint D →
      (T ++ D).filter (fun f => !(decide (f ∈ T))) = D := by
    intro T D hdisj
    rw [List.filter_append]
    have h1 : T.filter (fun f => !(decide (f ∈ T))) = [] :=
      List.filter_eq_nil_iff.mpr (fun a ha => by simp [ha])
    have h2 : D.filter (fun f => !(decide (f ∈ T))) = D :=
      List.filter_eq_self.mpr (fun a ha => by
        have hnm : a ∉ T := fun hmem => hdisj hmem ha
        simp [hnm])
    rw [h1, h2, List.nil_append]
  have hdisj : (S.take m).Disjoint (S.drop m) := by
    apply List.disjoint_of_nodup_append
    rw [List.take_append_drop]
    exact hndS
  have hsplit : S.filter (fun f => !(decide (f ∈ S.take m))) =
      (S.take m ++ S.drop m).filter (fun f => !(decide (f ∈ S.take m))) := by
    rw [List.take_append_drop]
  rw [hsplit, key (S.take m) (S.drop m) hdisj]

/-- C6. For a directory whose alert-file count exceeds the cap (and whose
entries are distinct), when every removal succeeds the cleanup leaves
exactly `MAX_ALERTS` alert files, every removed file is at least as old (by
modification time) as every surviving alert file, and — failures being
swallowed — for an arbitrary removal outcome only files whose removal
succeeded and which were listed leave the directory. -/
theorem cleanup_retention_cap (dir : List (List Char × Nat)) (hnd : dir.Nodup)
    (hn : MAX_ALERTS < (dir.filter (fun f => is_alert_filename f.1)).length) :
    ((cleanup_result dir (fun _ => true)).filter
        (fun f => is_alert_filename f.1)).length = MAX_ALERTS ∧
    (∀ r ∈ cleanup_removals dir (fun _ => true),
      ∀ f ∈ cleanup_result dir (fun _ => true),
        is_alert_filename f.1 = true → r.2 ≤ f.2) ∧
    (∀ removeOk : List Char → Bool, ∀ f ∈ cleanup_removals dir removeOk,
      removeOk f.1 = true ∧ f ∈ dir) := by
  have hR : cleanup_removals dir (fun _ => true) =
      ((dir.filter (fun f => is_alert_filename f.1)).mergeSort
          (fun a b => decide (a.2 ≤ b.2))).take
        ((dir.filter (fun f => is_alert_filename f.1)).length - MAX_ALERTS) := by
    simp only [cleanup_removals, if_pos hn]
    exact List.filter_eq_self.mpr fun a _ => rfl
  have hperm := List.mergeSort_perm (dir.filter (fun f => is_alert_filename f.1))
    (fun a b => decide (a.2 ≤ b.2))
  have hndA : (dir.filter (fun f => is_alert_filename f.1)).Nodup :=
    List.Nodup.filter _ hnd
  have hndS := hperm.nodup_iff.mpr hndA
  have htrans : ∀ a b c : List Char × Nat, decide (a.2 ≤ b.2) = true →
      decide (b.2 ≤ c.2) = true → decide (a.2 ≤ c.2) = true := by
    intro a b c hab hbc
    simp only [decide_eq_true_eq] at hab hbc ⊢
    omega
  have htotal : ∀ a b : List Char × Nat,
      (decide (a.2 ≤ b.2) || decide (b.2 ≤ a.2)) = true := by
    intro a b
    simp only [Bool.or_eq_true, decide_eq_true_eq]
    omega
  have hsorted := List.sorted_mergeSort htrans htotal
    (dir.filter (fun f => is_alert_filename f.1))
  have hkeep : (cleanup_result dir (fun _ => true)).filter
      (fun f => is_alert_filename f.1) =
      List.filter (fun f => !(decide (f ∈ cleanup_removals dir (fun _ => true))))
        (dir.filter (fun f => is_alert_filename f.1)) := by
    unfold cleanup_result
    rw [List.filter_filter, List.filter_filter]
    exact List.filter_congr fun a _ => Bool.and_comm _ _
  have hpermF : (List.filter
      (fun f => !(decide (f ∈ cleanup_removals dir (fun _ => true))))
      (dir.filter (fun f => is_alert_filename f.1))).Perm
      (List.filter (fun f => !(decide (f ∈ cleanup_removals dir (fun _ => true))))
        ((dir.filter (fun f => is_alert_filename f.1)).mergeSort
          (fun a b => decide (a.2 ≤ b.2)))) :=
    (hperm.filter _).symm
  have hdropEq : List.filter
      (fun f => !(decide (f ∈ cleanup_removals dir (fun _ => true))))
      ((dir.filter (fun f => is_alert_filename f.1)).mergeSort
        (fun a b => decide (a.2 ≤ b.2))) =
      ((dir.filter (fun f => is_alert_filename f.1)).mergeSort
        (fun a b => decide (a.2 ≤ b.2))).drop
        ((dir.filter (fun f => is_alert_filename f.1)).length - MAX_ALERTS) := by
    simp only [hR]
    exact filter_not_mem_take _ _ hndS
  refine ⟨?_, ?_, ?_⟩
  · rw [hkeep, hpermF.length_eq, hdropEq, List.length_drop, hperm.length_eq]
    simp only [MAX_ALERTS] at hn ⊢
    omega
  · intro r hr f hf hfa
    have hrT := hr
    rw [hR] at hrT
    have hfK : f ∈ List.filter
        (fun g => !(decide (g ∈ cleanup_removals dir (fun _ => true))))
        (dir.filter (fun g => is_alert_filename g.1)) := by
      have hmem : f ∈ (cleanup_result dir (fun _ => true)).filter
          (fun g => is_alert_filename g.1) := List.mem_filter.mpr ⟨hf, hfa⟩
      rw [hkeep] at hmem
      exact hmem
    have hfD : f ∈ ((dir.filter (fun g => is_alert_filename g.1)).mergeSort
        (fun a b => decide (a.2 ≤ b.2))).drop
        ((dir.filter (fun g => is_alert_filename g.1)).length - MAX_ALERTS) := by
      rw [← hdropEq]
      exact hpermF.mem_iff.mp hfK
    have hpw := hsorted
    rw [← List.take_append_drop
      ((dir.filter (fun g => is_alert_filename g.1)).length - MAX_ALERTS)
      ((dir.filter (fun g => is_alert_filename g.1)).mergeSort
        (fun a b => decide (a.2 ≤ b.2))), List.pairwise_append] at hpw
    exact decide_eq_true_eq.mp (hpw.2.2 r hrT f hfD)
  · intro removeOk f hf
    have h := cleanup_removals_subset dir removeOk f hf
    exact ⟨h.1, (List.mem_filter.mp h.2).1⟩

/-- C6 witness: a directory of 101 distinct alert files keeps exactly 100
after cleanup. -/
theorem cleanup_retention_cap_witness :
    ((cleanup_result dir101 (fun _ => true)).filter
        (fun f => is_alert_filename f.1)).length = MAX_ALERTS :=
  (cleanup_retention_cap dir101 (by decide) (by decide)).1

/-- C10. Retention housekeeping only ever deletes files whose name starts
with `ALERT_` and ends with `.txt`; the history log `alert_history.log`
fails that filter, so it — like every other non-matching file in the
directory — survives every cleanup, no matter how many alerts were
written. -/
theorem cleanup_removes_only_alert_files (dir : List (List Char × Nat))
    (removeOk : List Char → Bool) :
    (∀ f ∈ cleanup_removals dir removeOk, is_alert_filename f.1 = true) ∧
    is_alert_filename "alert_history.log".data = false ∧
    (∀ f ∈ dir, is_alert_filename f.1 = false → f ∈ cleanup_result dir removeOk) := by
  refine ⟨?_, by decide, ?_⟩
  · intro f hf
    exact (List.mem_filter.mp (cleanup_removals_subset dir removeOk f hf).2).2
  · intro f hfd hfa
    have hnot : f ∉ cleanup_removals dir removeOk := by
      intro hmem
      have h := (List.mem_filter.mp (cleanup_removals_subset dir removeOk f hmem).2).2
      rw [hfa] at h
      exact Bool.false_ne_true h
    unfold cleanup_result
    exact List.mem_filter.mpr ⟨hfd, by simp [hnot]⟩

/-- C10 witness: with 101 alert files and the history log in the directory,
the history log survives the cleanup. -/
theorem cleanup_removes_only_alert_files_witness :
    is_alert_filename "alert_history.log".data = false ∧
    ("alert_history.log".data, 200) ∈ cleanup_result dirHist (fun _ => true) :=
  ⟨(cleanup_removes_only_alert_files dirHist (fun _ => true)).2.1,
   (cleanup_removes_only_alert_files dirHist (fun _ => true)).2.2
     ("alert_history.log".data, 200) (by decide) (by decide)⟩

end EligSched
